import Mathlib

set_option maxRecDepth 16384

/-!
Shallow embedding of the data-cleaning pipeline of
src/src/data/make_dataset.py (lucky-parking).

A pandas cell in the columns of interest is a string or NaN (missing),
modelled as Option String (none = NaN).  A DataFrame restricted to the
three projected columns is a List Row.  Each pass of the clean pipeline
is translated directly from the source:
  - make-alias substitution: df.replace(alias_list, make) folded over the
    make alias table rows (exact whole-value match over every column);
  - reconciliation: same_codes = set(code col) intersect set(desc col);
    code_swap_filter = desc.isin(same_codes) or code == "000";
    code_swap sets violation_code to the old violation_description and
    violation_description to NaN;
  - drop pass: remove rows with violation_code.isna() and
    violation_description.isna();
  - violation-alias correction: for each key of viol_aliases, set
    violation_description on rows whose violation_code equals the key;
  - output: drop the violation_code column, reset a dense index, and name
    the file target_file.stem.replace("_raw", "_processed") + ".csv".
-/

namespace LuckyParking

/-- A citation record restricted to the three projected columns.
A field is none exactly when the pandas cell is NaN. -/
structure Row where
  make : Option String
  violation_code : Option String
  violation_description : Option String
deriving DecidableEq, Repr

/-- The range check of create_sample:
assert (sample_frac <= 1) and (sample_frac > 0).
The spec names the resulting failure InvalidArgument. -/
def create_sample_check (sample_frac : ℚ) : Except String Unit :=
  if sample_frac ≤ 1 ∧ 0 < sample_frac then Except.ok ()
  else Except.error "InvalidArgument"

/-- The skiprows callback of create_sample:
lambda i: i > 0 and random.random() > sample_frac,
with the random draw made an explicit argument. -/
def skiprow (sample_frac : ℚ) (i : ℕ) (draw : ℚ) : Bool :=
  decide (i > 0) && decide (draw > sample_frac)

/-- One cell under df.replace(aliases, canon): a cell is rewritten to the
canonical make exactly when its whole value equals one of the alias
strings (pandas replace with a list of scalars is exact match). -/
def replaceCell (aliases : List String) (canon : String) (c : Option String) :
    Option String :=
  match c with
  | none => none
  | some s => if s ∈ aliases then some canon else some s

/-- df.replace(aliases, canon) on one row: every column is rewritten. -/
def replaceRow (aliases : List String) (canon : String) (r : Row) : Row :=
  ⟨replaceCell aliases canon r.make,
   replaceCell aliases canon r.violation_code,
   replaceCell aliases canon r.violation_description⟩

/-- The make-alias pass: for _, data in make_df.iterrows():
df = df.replace(data["alias"], data["make"]).  The make alias table is a
list of (canonical make, alias list) pairs in file order. -/
def makeAliasPass (makeTbl : List (String × List String)) (t : List Row) :
    List Row :=
  makeTbl.foldl (fun t p => t.map (replaceRow p.2 p.1)) t

/-- same_codes = set(df["violation_code"]).intersection(
set(df["violation_description"])); kept as the list of code-column values
that also occur in the description column (membership is what matters). -/
def sameCodes (t : List Row) : List (Option String) :=
  (t.map Row.violation_code).filter
    (fun c => decide (c ∈ t.map Row.violation_description))

/-- code_swap: df["violation_code"] = df["violation_description"];
df["violation_description"] = np.nan  (applied per row). -/
def code_swap (r : Row) : Row :=
  { r with violation_code := r.violation_description,
           violation_description := none }

/-- code_swap_filter = df["violation_description"].isin(same_codes)
| (df["violation_code"] == "000"). -/
def code_swap_filter (sc : List (Option String)) (r : Row) : Bool :=
  decide (r.violation_description ∈ sc) ||
    decide (r.violation_code = some "000")

/-- The reconciliation swap pass: rows selected by code_swap_filter
(computed once, from the pre-swap table) are replaced by code_swap. -/
def swapPass (t : List Row) : List Row :=
  t.map (fun r => if code_swap_filter (sameCodes t) r then code_swap r else r)

/-- df = df[~(df["violation_code"].isna() &
df["violation_description"].isna())]. -/
def dropPass (t : List Row) : List Row :=
  t.filter (fun r =>
    !(r.violation_code.isNone && r.violation_description.isNone))

/-- The static viol_aliases mapping, in source order (a Python dict
literal with no duplicate keys, so insertion order is iteration order). -/
def viol_aliases : List (String × String) := [
  ("22500B", "PARKED IN CROSSWALK"),
  ("22507.8B", "DISABLED PARKING/OBS"),
  ("80.69A+", "STOP/STAND PROHIBIT"),
  ("8056E2", "YELLOW ZONE"),
  ("22507.8B-", "DISABLED PARKING/OBSTRUCT ACCESS"),
  ("80.61", "STANDNG IN ALLEY"),
  ("80.66.1D", "RESTRICTED TAXI ZONE"),
  ("80.54", "OVERNIGHT PARKING"),
  ("8061#", "STANDING IN ALLEY"),
  ("80.69.1C", "PK TRAILER"),
  ("225001", "PARK FIRE LANE"),
  ("80.69D", "VEH/LOAD OVR 6\x27 HIGH"),
  ("22500.1+", "PARKED IN FIRE LANE"),
  ("22507.8A-", "DISABLED PARKING/NO DP ID"),
  ("557", "8755*"),
  ("80.69BS", "NO PARK/STREET CLEAN"),
  ("22502E", "18 IN. CURB/1 WAY"),
  ("5200A", "DSPLYPLATE A"),
  ("22507.8A", "DISABLED PARKING/NO"),
  ("80692*", "COMVEH RES/OV TM B-2"),
  ("553", "80581"),
  ("22511.57B", "DP- RO NOT PRESENT"),
  ("80.69.4", "PK OVERSIZ"),
  ("80.75.1", "AUDIBLE ALARM"),
  ("5204A-", "DISPLAY OF TABS"),
  ("80.69C", "PARKED OVER TIME LIMIT"),
  ("80713", "PARKING/FRONT YARD 1"),
  ("22500K", "PARKED ON BRIDGE"),
  ("569", "2251157A"),
  ("88.03A", "OUTSIDE LINES/METER"),
  ("22522-", "3 FT. SIDEWALK RAMP"),
  ("22507.8C1", "DISABLED PARKING/BOUNDARIES"),
  ("8709D", "LOADING ZONES"),
  ("88.66", "ELECTRIC CHARGING STATION SPACES"),
  ("8070", "PARK IN GRID LOCK ZN"),
  ("88.63B+", "OFF STR/OVERTIME/MTR"),
  ("88.53", "OFF STR MTR/OUT LINE"),
  ("80692", "COMVEH RES/OV TM LMT"),
  ("17104H", "LOAD/UNLOAD ONLY"),
  ("80.58.1", "CARSHARE PARKING"),
  ("80.69AP+", "NO STOP/STANDING"),
  ("8056E1", "WHITE ZONE"),
  ("6344K2", "NO PARKING BETWEEN POSTED HOURS"),
  ("80.58L", "PREFERENTIAL PARKING"),
  ("80.53", "PARKED IN PARKWAY"),
  ("8069BS", "NO PARK/STREET CLEAN"),
  ("556", "8755"),
  ("5201", "POSITION OF PLATES"),
  ("8936", "RED CURB"),
  ("80.56E4+", "RED ZONE"),
  ("8061", "STNDNG IN ALLEY"),
  ("8056", "YELLOW ZONE"),
  ("80.72", "RED FLAG DAY"),
  ("22507A", "OVERSIZED VEHICLE PARKING TOPHAM ST"),
  ("22500L-", "DP-BLKNG ACCESS RAMP"),
  ("80661D", "RESTRICTED ZONE"),
  ("80.69AA+", "NO STOP/STAND"),
  ("22500H", "DOUBLE PARKING"),
  ("572521D", "MT FIRE RD NO PERMIT"),
  ("87.55", "FOR SALE SIGN"),
  ("8813B", "METER EXPIRED"),
  ("031", "22523A"),
  ("5202", "PERIOD OF DISPLAY"),
  ("8069B", "NO PARKING"),
  ("22511.1B", "PRK IN ELEC VEH SPACE"),
  ("805.6", "WHITE ZONE"),
  ("8056E4", "RED ZONE"),
  ("22502A", "18 IN. CURB/2 WAY"),
  ("89391C", "EXCEED TIME LMT"),
  ("85.01", "REPAIRING VEH/STREET"),
  ("8069C", "PKD OVER TIME LIMIT"),
  ("80732", "EXCEED 72 HOURS"),
  ("8606", "PK OTSD PSTD AR"),
  ("8603", "PK IN PROH AREA"),
  ("89391A", "STOP/STAND PROHB"),
  ("8053", "PKD IN/ON PARKWAY"),
  ("8939", "WHITE CURB"),
  ("86.03", "CITY PARK/PROHIB"),
  ("80714#", "PRIVATE PROPERTY"),
  ("80.69.2", "COMM VEH OVER TIME LIMIT"),
  ("572521E", "OBST FIRE RD"),
  ("045", "4000"),
  ("80.70", "NO STOPPING/ANTI-GRIDLOCK ZONE"),
  ("8940", "PARKING AREA"),
  ("21113", "PRKG PUBL GRNDS"),
  ("80714", "PRIVATE PROPERTY"),
  ("80.49+", "18 IN/CURB/COMM VEH"),
  ("5204A", "EXPIRED TAGS"),
  ("8051A", "LEFT SIDE OF ROADWAY"),
  ("80692**", "COMVEH RES/OV TM C-3"),
  ("22507.8C2", "DISABLED PARKING/CROSS HATCH"),
  ("80.7", "NO STOPPING/ANTI-GRIDLOCK ZONE"),
  ("225078A", "HANDICAP/NO DP ID"),
  ("88.64A", "TIME LIMIT/CITY LOT"),
  ("8501", "REPAIRING VEH/STREET"),
  ("80.73.2", "EXCEED 72HRS-ST"),
  ("22511.56B", "DP-REFUSE ID"),
  ("8863B", "OFF STR/OVERTIME/MTR"),
  ("80.56E2", "YELLOW ZONE"),
  ("8056E3", "GREEN ZONE"),
  ("80.71.3", "PARKING/FRONT YARD"),
  ("030", "22522"),
  ("8069A", "NO STOPPING/STANDING"),
  ("8058L", "PREF PARKING"),
  ("88.13B+", "METER EXP."),
  ("22500A", "WITHIN INTERSECTION"),
  ("22507.8C", "DISABLED PARKING/CRO"),
  ("80.54H1", "OVNIGHT PRK W/OUT PE"),
  ("89355C", "ILGL EXT OF TM"),
  ("2251156B", "MISUSE/DP PRIVILEGE"),
  ("21211B", "BLK BIKE PATH OR LANE"),
  ("4000A1", "NO EVIDENCE OF REG"),
  ("22511.57", "DP- RO NOT PRESENT"),
  ("22500C", "SAFETY ZONE/CURB"),
  ("225078C2", "HANDICAP/CROSS HATCH"),
  ("6344K7", "PARKING OUTSIDE PARKING STALLS"),
  ("86.06", "CITY PARK/PROHIB"),
  ("22500E", "BLOCKING DRIVEWAY"),
  ("22500I-", "PARKED IN BUS ZONE"),
  ("80.69.1A", "COMM TRAILER/22 FT."),
  ("225078C1", "HANDICAP/ON LINE"),
  ("80691C", "PARKING UNHITCHED TR"),
  ("22515", "UNATT/MOTOR ON"),
  ("5200", "DISPLAY OF PLATES"),
  ("17104C", "R/PRIV PARKING AREA"),
  ("22526", "BLOCKING INTERSECTION"),
  ("80.56E1", "WHITE ZONE"),
  ("80691A", "COMM TRAILER/22 FT."),
  ("571", "2251157C"),
  ("8709B", "PARK-PSTD AREAS"),
  ("22514", "FIRE HYDRANT"),
  ("029", "22521"),
  ("80.69B", "NO PARKING"),
  ("8803A", "PK OUTSD SPACE"),
  ("8049", "WRG SD/NOT PRL"),
  ("22500F", "PARKED ON SIDEWALK"),
  ("8072", "PARK RED FLAG DAY"),
  ("80.74", "CLEANING VEH/STREET"),
  ("8074", "CLEANING VEH/STREET"),
  ("8069AP", "NO STOP/STAND PM"),
  ("8073C", "CATERING/CENTER CITY"),
  ("8709K", "PK OVR PNTD LNS"),
  ("80.56E3", "GREEN ZONE"),
  ("8943", "PARK IN XWALK"),
  ("22511.57C", "DP-ALTERED"),
  ("017", "22502"),
  ("21113A+", "PUBLIC GROUNDS"),
  ("80731", "STORING VEH/ON STR"),
  ("6344C", "COMMERCIAL - UNDESIG"),
  ("225078B", "HANDICPD/BLOCKING"),
  ("80.71.4", "PRIVATE PROPERTY"),
  ("8069AA", "NO STOP/STAND AM"),
  ("6344K8", "SIGN POSTED - NO PARKING")
]

/-- One step of the violation-alias correction:
df.loc[df["violation_code"] == key, "violation_description"] = value. -/
def violStep (k v : String) (t : List Row) : List Row :=
  t.map (fun r =>
    if r.violation_code = some k
    then { r with violation_description := some v } else r)

/-- for key in viol_aliases.keys(): df.loc[df["violation_code"] == key,
"violation_description"] = viol_aliases[key]. -/
def violAliasPass (t : List Row) : List Row :=
  viol_aliases.foldl (fun t p => violStep p.1 p.2 t) t

/-- The in-memory passes of clean, in source order: make-alias
substitution, reconciliation swap, drop of both-missing rows,
violation-alias correction. -/
def cleanPasses (makeTbl : List (String × List String)) (t : List Row) :
    List Row :=
  violAliasPass (dropPass (swapPass (makeAliasPass makeTbl t)))

/-- The written output rows: violation_code column dropped, dense
zero-based index column added (df.drop("violation_code", axis=1);
df.reset_index twice). -/
def finalRows (makeTbl : List (String × List String)) (t : List Row) :
    List (ℕ × Option String × Option String) :=
  (cleanPasses makeTbl t).enum.map
    (fun p => (p.1, p.2.make, p.2.violation_description))

/-- If the pattern is a prefix of the char list, return the remainder
after it; otherwise none. -/
def stripPre : List Char → List Char → Option (List Char)
  | [], s => some s
  | _ :: _, [] => none
  | o :: os, c :: cs => if o = c then stripPre os cs else none

/-- Worker for Python str.replace: scan left to right, replacing each
(non-overlapping) occurrence of old by new; fueled by the input length
(each step consumes at least one character when old is nonempty). -/
def pyRepGo (old new : List Char) : Nat → List Char → List Char
  | _, [] => []
  | 0, s => s
  | n + 1, c :: cs =>
    match stripPre old (c :: cs) with
    | some rest => new ++ pyRepGo old new n rest
    | none => c :: pyRepGo old new n cs

/-- Whether old occurs as a contiguous substring of the char list. -/
def containsSub (old : List Char) : List Char → Bool
  | [] => decide (old = [])
  | c :: cs => (stripPre old (c :: cs)).isSome || containsSub old cs

/-- Python str.replace(old, new) for a nonempty pattern: replace every
(non-overlapping, left-to-right) occurrence of old by new. -/
def pyReplace (s old new : String) : String :=
  String.mk (pyRepGo old.data new.data s.data.length s.data)

/-- The output file name of clean:
target_file.stem.replace("_raw", "_processed") + ".csv". -/
def outputName (stem : String) : String :=
  pyReplace stem "_raw" "_processed" ++ ".csv"

/-- The per-row residual of the make-alias pass (the same alias folds,
restricted to one row). -/
def makeRowNormalize (makeTbl : List (String × List String)) (r : Row) : Row :=
  makeTbl.foldl (fun r p => replaceRow p.2 p.1 r) r

/-- The per-row residual of the violation-alias pass. -/
def violRowNormalize (r : Row) : Row :=
  viol_aliases.foldl (fun r p =>
    if r.violation_code = some p.1
    then { r with violation_description := some p.2 } else r) r

/- Helper lemmas -/

theorem map_eq_self_of_mem {α : Type} (f : α → α) :
    ∀ (l : List α), (∀ a ∈ l, f a = a) → l.map f = l := by
  intro l
  induction l with
  | nil => intro _; rfl
  | cons a l ih =>
    intro h
    simp only [List.map_cons]
    rw [h a (List.mem_cons_self a l), ih (fun b hb => h b (List.mem_cons_of_mem a hb))]

theorem foldl_map_comm {α β : Type} (g : β → α → α) (L : List β) :
    ∀ t : List α,
      L.foldl (fun t p => t.map (g p)) t =
        t.map (fun a => L.foldl (fun a p => g p a) a) := by
  induction L with
  | nil => intro t; simp
  | cons p L ih =>
    intro t
    simp only [List.foldl_cons]
    rw [ih (t.map (g p)), List.map_map]
    rfl

theorem violfold_eq_map : ∀ (L : List (String × String)) (t : List Row),
    L.foldl (fun t p => violStep p.1 p.2 t) t =
      t.map (fun r => L.foldl (fun r p =>
        if r.violation_code = some p.1
        then { r with violation_description := some p.2 } else r) r) := by
  intro L
  induction L with
  | nil => intro t; simp
  | cons p L ih =>
    intro t
    simp only [List.foldl_cons]
    rw [show violStep p.1 p.2 t = t.map (fun r =>
      if r.violation_code = some p.1
      then { r with violation_description := some p.2 } else r) from rfl]
    rw [ih, List.map_map]
    rfl

theorem pyRepGo_of_not_contains (old new : List Char) (s : List Char)
    (h : containsSub old s = false) : ∀ n, pyRepGo old new n s = s := by
  induction s with
  | nil => intro n; cases n <;> rfl
  | cons c cs ih =>
    intro n
    simp only [containsSub, Bool.or_eq_false_iff] at h
    cases n with
    | zero => rfl
    | succ m =>
      cases hs : stripPre old (c :: cs) with
      | none => simp only [pyRepGo, hs]; exact congrArg (List.cons c) (ih h.2 m)
      | some rest =>
        rw [hs] at h
        simp at h

/- Claim theorems -/

/-- C4, counterexample: the claim says that a source stem with no _raw
suffix gets _processed appended; the code leaves such a stem unchanged,
so clean("data.csv") writes data.csv, not data_processed.csv. -/
theorem C4_counterexample :
    outputName "data" = "data.csv" ∧ outputName "data" ≠ "data_processed.csv" := by
  decide

/-- C4, amended: clean names its output by replacing every occurrence of
_raw in the source stem with _processed (str.replace is not restricted
to a suffix); a stem containing no occurrence of _raw is used unchanged
(nothing is appended). -/
theorem C4_output_naming :
    (∀ stem : String, containsSub "_raw".data stem.data = false →
      outputName stem = stem ++ ".csv") ∧
    outputName "2020-01-01_raw" = "2020-01-01_processed.csv" ∧
    outputName "my_rawfile_raw" = "my_processedfile_processed.csv" := by
  refine ⟨fun stem h => ?_, by decide, by decide⟩
  have h2 := pyRepGo_of_not_contains "_raw".data "_processed".data stem.data h
    stem.data.length
  simp only [outputName, pyReplace, h2]

/-- C4, witness for the amended claim at the concrete stem data. -/
theorem C4_output_naming_witness : outputName "data" = "data.csv" :=
  C4_output_naming.1 "data" (by decide)

/-- C6: create_sample's range check (assert sample_frac <= 1 and
sample_frac > 0) fails with the InvalidArgument error exactly when the
sample fraction is outside the half-open interval (0, 1]. -/
theorem C6_sample_frac_check :
    ∀ f : ℚ, create_sample_check f = Except.error "InvalidArgument" ↔
      ¬(0 < f ∧ f ≤ 1) := by
  intro f
  unfold create_sample_check
  split
  · rename_i h
    constructor
    · intro he; exact absurd he (by simp)
    · intro hn; exact absurd ⟨h.2, h.1⟩ hn
  · rename_i h
    constructor
    · intro _ hc; exact h ⟨hc.2, hc.1⟩
    · intro _; rfl

/-- C8: the drop pass (isna-based) removes a surviving row only when both
violation_code and violation_description are missing (NaN); a row whose
two fields hold the present-but-empty string is retained. -/
theorem C8_drop_only_missing (t : List Row) (r : Row) (hr : r ∈ t) :
    (r ∉ dropPass t →
      r.violation_code = none ∧ r.violation_description = none) ∧
    (r.violation_code = some "" → r.violation_description = some "" →
      r ∈ dropPass t) := by
  constructor
  · intro hnot
    by_contra hc
    apply hnot
    rw [dropPass, List.mem_filter]
    refine ⟨hr, ?_⟩
    cases hcode : r.violation_code <;> cases hdesc : r.violation_description <;>
      simp_all
  · intro hc hd
    rw [dropPass, List.mem_filter]
    exact ⟨hr, by rw [hc, hd]; rfl⟩

/-- C8, witness: a row with both fields equal to the empty string is kept
by the drop pass. -/
theorem C8_drop_only_missing_witness :
    (⟨some "M", some "", some ""⟩ : Row) ∈
      dropPass [⟨some "M", some "", some ""⟩] :=
  (C8_drop_only_missing [⟨some "M", some "", some ""⟩] _ (by decide)).2 rfl rfl

/-- C9: df.replace with a list of alias scalars is an exact whole-value
match: a cell becomes the canonical make exactly when its entire value is
one of the aliases; any other cell (in particular one merely containing
an alias as a proper substring) is unchanged, and missing cells stay
missing. -/
theorem C9_alias_exact_match (aliases : List String) (canon s : String) :
    (s ∈ aliases → replaceCell aliases canon (some s) = some canon) ∧
    (s ∉ aliases → replaceCell aliases canon (some s) = some s) ∧
    replaceCell aliases canon none = none := by
  refine ⟨fun h => ?_, fun h => ?_, rfl⟩
  · simp [replaceCell, h]
  · simp [replaceCell, h]

/-- C9, witness: TOYT is an alias and a proper substring of the cell
TOYT TRUCK, yet the cell is not replaced. -/
theorem C9_alias_exact_match_witness :
    replaceCell ["TOYT", "TOYO"] "TOYOTA" (some "TOYT TRUCK") =
      some "TOYT TRUCK" :=
  (C9_alias_exact_match ["TOYT", "TOYO"] "TOYOTA" "TOYT TRUCK").2.1 (by decide)

/-- C10: with sample fraction 1, the skiprows callback
(i > 0 and random.random() > sample_frac) never skips a row, because a
draw from [0, 1) is never strictly greater than 1. -/
theorem C10_fraction_one_keeps_all (i : ℕ) (draw : ℚ)
    (h0 : 0 ≤ draw) (h1 : draw < 1) : skiprow 1 i draw = false := by
  simp only [skiprow, Bool.and_eq_false_iff, decide_eq_false_iff_not, not_lt]
  right
  linarith [h0, h1]

/-- C10, witness at row index 5 and draw 1/2. -/
theorem C10_fraction_one_keeps_all_witness : skiprow 1 5 (1/2) = false :=
  C10_fraction_one_keeps_all 5 (1/2) (by norm_num) (by norm_num)

/-- C1, counterexample: on the row (code 000, description X) the swap
yields (code X, description missing) — code_swap copies the description
into the code field and clears the description — not the claimed
(code empty, description 000) in either its empty-string or its missing
reading. -/
theorem C1_counterexample :
    swapPass [⟨some "M", some "000", some "X"⟩] =
      [⟨some "M", some "X", none⟩] ∧
    swapPass [⟨some "M", some "000", some "X"⟩] ≠
      [⟨some "M", some "", some "000"⟩] ∧
    swapPass [⟨some "M", some "000", some "X"⟩] ≠
      [⟨some "M", none, some "000"⟩] := by
  decide

/-- C1, amended: for every swap-eligible row the repair moves the old
violation_description value into violation_code and sets
violation_description to missing; concretely (code 000, description X)
becomes (code X, description missing). -/
theorem C1_swap_direction (t : List Row) (r : Row) (hr : r ∈ t)
    (he : code_swap_filter (sameCodes t) r = true) :
    (⟨r.make, r.violation_description, none⟩ : Row) ∈ swapPass t := by
  unfold swapPass
  rw [List.mem_map]
  exact ⟨r, hr, by rw [if_pos he]; rfl⟩

/-- C1, witness: the sentinel row (code 000, description X) is eligible
and its repaired form (code X, description missing) is in the swapped
table. -/
theorem C1_swap_direction_witness :
    (⟨some "M", some "X", none⟩ : Row) ∈
      swapPass [⟨some "M", some "000", some "X"⟩] :=
  C1_swap_direction [⟨some "M", some "000", some "X"⟩]
    ⟨some "M", some "000", some "X"⟩ (by decide) (by decide)

/-- C2, counterexample: a row whose code and description are both the
sentinel 000 is swap-eligible, and the swap writes the old description —
again 000 — into violation_code; the row survives the drop pass, so a
record with violation_code 000 remains after the passes. -/
theorem C2_counterexample :
    dropPass (swapPass [⟨some "M", some "000", some "000"⟩]) =
      [⟨some "M", some "000", none⟩] ∧
    (⟨some "M", some "000", none⟩ : Row).violation_code = some "000" := by
  decide

/-- C2, amended: after the reconciliation swap and the drop pass no
record has both violation_code and violation_description missing, but a
record may still carry the sentinel code 000: this happens only when the
record is the swap of a swap-eligible source row whose pre-swap
violation_description was 000. -/
theorem C2_post_pass_invariant (t : List Row) (r : Row)
    (hr : r ∈ dropPass (swapPass t)) :
    ¬(r.violation_code = none ∧ r.violation_description = none) ∧
    (r.violation_code = some "000" →
      ∃ r₀, r₀ ∈ t ∧ code_swap_filter (sameCodes t) r₀ = true ∧
        r₀.violation_description = some "000" ∧ r = code_swap r₀) := by
  constructor
  · rcases List.mem_filter.mp hr with ⟨-, hkeep⟩
    rintro ⟨hc, hd⟩
    rw [hc, hd] at hkeep
    simp at hkeep
  · intro h000
    have hsw : r ∈ swapPass t := (List.mem_filter.mp hr).1
    rw [swapPass, List.mem_map] at hsw
    rcases hsw with ⟨r₀, hr₀, heq⟩
    by_cases hf : code_swap_filter (sameCodes t) r₀ = true
    · rw [if_pos hf] at heq
      refine ⟨r₀, hr₀, hf, ?_, heq.symm⟩
      rw [← heq] at h000
      exact h000
    · rw [if_neg hf] at heq
      subst heq
      exact absurd (by simp [code_swap_filter, h000]) hf

/-- C2, witness: the surviving sentinel-code record is the swap of the
eligible source row whose pre-swap description was 000. -/
theorem C2_post_pass_invariant_witness :
    ∃ r₀, r₀ ∈ [(⟨some "M", some "000", some "000"⟩ : Row)] ∧
      code_swap_filter
        (sameCodes [(⟨some "M", some "000", some "000"⟩ : Row)]) r₀ = true ∧
      r₀.violation_description = some "000" ∧
      (⟨some "M", some "000", none⟩ : Row) = code_swap r₀ :=
  (C2_post_pass_invariant [⟨some "M", some "000", some "000"⟩]
    ⟨some "M", some "000", none⟩ (by decide)).2 rfl

/-- C5: on a table with no sentinel code 000 and no overlap between the
code-column values and the description-column values, the Reconciler
(same_codes computation, swap pass, drop pass) is the identity. -/
theorem C5_identity_on_clean_table (t : List Row)
    (h000 : ∀ r ∈ t, r.violation_code ≠ some "000")
    (hdisj : ∀ c ∈ t.map Row.violation_code,
      c ∉ t.map Row.violation_description) :
    dropPass (swapPass t) = t := by
  have hsw : swapPass t = t := by
    unfold swapPass
    apply map_eq_self_of_mem
    intro r hr
    have hf : code_swap_filter (sameCodes t) r = false := by
      unfold code_swap_filter
      rw [Bool.or_eq_false_iff]
      constructor
      · rw [decide_eq_false_iff_not]
        intro hmem
        rcases List.mem_filter.mp hmem with ⟨hc, hd⟩
        rw [decide_eq_true_eq] at hd
        exact hdisj _ hc hd
      · rw [decide_eq_false_iff_not]
        exact h000 r hr
    rw [hf]
    simp
  rw [hsw]
  apply List.filter_eq_self.mpr
  intro r hr
  cases hcode : r.violation_code with
  | some v => simp [hcode]
  | none =>
    cases hdesc : r.violation_description with
    | some v => simp [hcode, hdesc]
    | none =>
      exact absurd (List.mem_map.mpr ⟨r, hr, hdesc⟩)
        (hdisj none (List.mem_map.mpr ⟨r, hr, hcode⟩))

/-- C5, witness: a one-row table with distinct code and description and
no sentinel passes through the Reconciler unchanged. -/
theorem C5_identity_on_clean_table_witness :
    dropPass (swapPass [⟨some "HOND", some "80.69B", some "NO PARKING"⟩]) =
      [⟨some "HOND", some "80.69B", some "NO PARKING"⟩] :=
  C5_identity_on_clean_table [⟨some "HOND", some "80.69B", some "NO PARKING"⟩]
    (by decide) (by decide)

/-- C7: each Alias Normalizer pass is a per-row rewrite — the make-alias
pass and the violation-alias pass each equal a map of a per-row function
over the table, so neither adds, removes, or reorders rows, and each
output row is obtained from the input row at the same position. -/
theorem C7_normalizer_frame (makeTbl : List (String × List String))
    (t : List Row) :
    makeAliasPass makeTbl t = t.map (makeRowNormalize makeTbl) ∧
    (makeAliasPass makeTbl t).length = t.length ∧
    violAliasPass t = t.map violRowNormalize ∧
    (violAliasPass t).length = t.length := by
  have e1 : makeAliasPass makeTbl t =
      List.foldl (fun t p => t.map
        (fun r => replaceRow p.2 p.1 r)) t makeTbl := rfl
  have h1 : makeAliasPass makeTbl t = t.map (makeRowNormalize makeTbl) := by
    rw [e1]
    exact foldl_map_comm (fun p r => replaceRow p.2 p.1 r) makeTbl t
  have h2 : violAliasPass t = t.map violRowNormalize :=
    violfold_eq_map viol_aliases t
  exact ⟨h1, by rw [h1, List.length_map], h2, by rw [h2, List.length_map]⟩

theorem violfold_cases :
    ∀ (L : List (String × String)) (t : List Row),
      (∀ p ∈ L, p.2 ≠ "") → ∀ r ∈ L.foldl (fun t p => violStep p.1 p.2 t) t,
        (∃ p ∈ L, r.violation_code = some p.1 ∧
          ∃ v, r.violation_description = some v ∧ v ≠ "") ∨
        ((∀ p ∈ L, r.violation_code ≠ some p.1) ∧ r ∈ t) := by
  intro L
  induction L with
  | nil => intro t _ r hr; right; exact ⟨by simp, hr⟩
  | cons p L ih =>
    intro t hv r hr
    rcases ih (violStep p.1 p.2 t)
        (fun q hq => hv q (List.mem_cons_of_mem _ hq)) r hr with
      h | ⟨hnokey, hmem⟩
    · left
      rcases h with ⟨q, hq, h⟩
      exact ⟨q, List.mem_cons_of_mem _ hq, h⟩
    · rw [violStep, List.mem_map] at hmem
      rcases hmem with ⟨r₀, hr₀, heq⟩
      by_cases hk : r₀.violation_code = some p.1
      · rw [if_pos hk] at heq
        left
        refine ⟨p, List.mem_cons_self _ _, ?_, ?_⟩
        · rw [← heq]; exact hk
        · rw [← heq]; exact ⟨p.2, rfl, hv p (List.mem_cons_self _ _)⟩
      · rw [if_neg hk] at heq
        subst heq
        right
        refine ⟨fun q hq => ?_, hr₀⟩
        rcases List.mem_cons.mp hq with hq | hq
        · rw [hq]; exact hk
        · exact hnokey q hq

/-- C3, counterexample: in the two-row table
(BAR, ZZZ), (FOO, BAR) the second row is swap-eligible (its description
BAR also occurs as a code), and after the swap its code BAR is not a key
of viol_aliases, so the row survives to the written output with a
missing violation_description. -/
theorem C3_counterexample :
    finalRows [] [⟨some "M", some "BAR", some "ZZZ"⟩,
                  ⟨some "M", some "FOO", some "BAR"⟩] =
      [(0, some "M", some "ZZZ"), (1, some "M", none)] := by
  decide

/-- C3, amended: not every surviving row has a usable description — a
surviving row whose violation_code is a key of viol_aliases does end the
pipeline with a non-empty, non-missing violation_description (every
correction string in the table is non-empty), while a surviving row
whose code is not a key keeps its post-swap description, which can be
missing. -/
theorem C3_description_when_code_known
    (makeTbl : List (String × List String)) (t : List Row) (r : Row)
    (hr : r ∈ cleanPasses makeTbl t)
    (hkey : ∃ p, p ∈ viol_aliases ∧ r.violation_code = some p.1) :
    ∃ v, r.violation_description = some v ∧ v ≠ "" := by
  have hv : ∀ p ∈ viol_aliases, p.2 ≠ "" := by decide
  rcases violfold_cases viol_aliases
      (dropPass (swapPass (makeAliasPass makeTbl t))) hv r hr with
    ⟨_, _, _, hg⟩ | ⟨hno, _⟩
  · exact hg
  · rcases hkey with ⟨p, hp, hc⟩
    exact absurd hc (hno p hp)

/-- C3, witness: a row whose code 8056 is a viol_aliases key gets the
non-empty description YELLOW ZONE. -/
theorem C3_description_when_code_known_witness :
    ∃ v, Row.violation_description
        ⟨some "M", some "8056", some "YELLOW ZONE"⟩ = some v ∧ v ≠ "" :=
  C3_description_when_code_known [] [⟨some "M", some "8056", some "D"⟩]
    ⟨some "M", some "8056", some "YELLOW ZONE"⟩ (by decide) (by decide)

end LuckyParking
